import Mathlib

/-!
Verification of `src/cogent3/draw/drawable.py` (cogent3 drawing layer).

Shallow embedding: Python floats are modelled by `ℚ` (the module performs
only exact field arithmetic: divisions, multiplications, additions on small
literals), Python ints by `ℤ`/`ℕ`, fallible calls by `Except String`
carrying the name of the Python exception raised, and `None` markers inside
numpy coordinate arrays by `Option ℚ`.
-/

instance {ε α : Type} [DecidableEq ε] [DecidableEq α] : DecidableEq (Except ε α)
  | .ok a, .ok b =>
    if h : a = b then .isTrue (by rw [h])
    else .isFalse (by intro hc; injection hc; contradiction)
  | .ok _, .error _ => .isFalse (by intro hc; injection hc)
  | .error _, .ok _ => .isFalse (by intro hc; injection hc)
  | .error e, .error f =>
    if h : e = f then .isTrue (by rw [h])
    else .isFalse (by intro hc; injection hc; contradiction)

/-- Embedding of `get_domain(total, element, is_y, space=0.01)`
(drawable.py lines 23-53).  Returns the evenly spaced domain for an element
in a grid plot.  The Python code:
* returns `[0, 1]` immediately when `total == 1`;
* raises `ValueError` when `element > total - 1`;
* would raise `ZeroDivisionError` at `1 / total` when `total == 0`
  (reachable only for negative `element`);
* builds `bounds = [per_element * i for i in range(total + 1)]` and
  `domains[k] = (bounds[k] + space, bounds[k+1] - space)` with
  `space = min(space / 2, per_element / 10)`;
* flips `element` to `total - element - 1` when `is_y`;
* indexes `domains[element]` with Python list-index semantics (negative
  indices wrap once; anything still out of range raises `IndexError`). -/
def get_domain (total : ℕ) (element : ℤ) (is_y : Bool) (space : ℚ) :
    Except String (ℚ × ℚ) :=
  if total = 1 then .ok (0, 1)
  else if (total : ℤ) - 1 < element then .error "ValueError"
  else if total = 0 then .error "ZeroDivisionError"
  else
    let per_element : ℚ := 1 / (total : ℚ)
    let sp : ℚ := min (space / 2) (per_element / 10)
    let bounds : List ℚ := (List.range (total + 1)).map (fun i : ℕ => per_element * (i : ℚ))
    let domains : List (ℚ × ℚ) :=
      (List.range total).map (fun k => (bounds.getD k 0 + sp, bounds.getD (k + 1) 0 - sp))
    let e : ℤ := if is_y then (total : ℤ) - element - 1 else element
    let i : ℤ := if e < 0 then e + (total : ℤ) else e
    if 0 ≤ i ∧ i < (total : ℤ) then
      match domains[i.toNat]? with
      | some d => .ok d
      | none => .error "IndexError"
    else .error "IndexError"

theorem get_domain_bounds_getD (total k : ℕ) (hk : k ≤ total) (p : ℚ) :
    (((List.range (total + 1)).map (fun i : ℕ => p * (i : ℚ))).getD k 0) = p * k := by
  rw [List.getD_eq_getElem?_getD, List.getElem?_map, List.getElem?_range
    (by omega : k < total + 1)]
  rfl

theorem get_domain_eval (total : ℕ) (element : ℤ) (is_y : Bool) (space : ℚ)
    (h2 : 2 ≤ total) (h0 : 0 ≤ element) (hle : element ≤ (total : ℤ) - 1) :
    ∃ k : ℕ, k + 1 ≤ total ∧
      get_domain total element is_y space =
        .ok (1 / (total : ℚ) * k + min (space / 2) (1 / (total : ℚ) / 10),
             1 / (total : ℚ) * (k + 1) - min (space / 2) (1 / (total : ℚ) / 10)) := by
  have he : 0 ≤ (if is_y then (total : ℤ) - element - 1 else element) ∧
      (if is_y then (total : ℤ) - element - 1 else element) ≤ (total : ℤ) - 1 := by
    cases is_y <;> simp <;> omega
  refine ⟨(if is_y then (total : ℤ) - element - 1 else element).toNat, by omega, ?_⟩
  unfold get_domain
  rw [if_neg (by omega), if_neg (by omega), if_neg (by omega)]
  simp only
  rw [if_neg (by omega : ¬ (if is_y then (total : ℤ) - element - 1 else element) < 0),
    if_pos ⟨he.1, by omega⟩]
  have hk1 : (if is_y then (total : ℤ) - element - 1 else element).toNat < total := by omega
  rw [List.getElem?_map, List.getElem?_range hk1]
  simp only [Option.map_some']
  rw [get_domain_bounds_getD _ _ (by omega), get_domain_bounds_getD _ _ (by omega)]
  push_cast
  ring_nf

/-- C1 (counterexample): at `total = 1`, `element = 0`, `is_y = False` and the
default `space = 0.01`, `get_domain` returns the domain `[0, 1]`, whose bounds
sum to `1`, not to `1 - space = 0.99` as the claim states. -/
theorem claim_C1_counterexample :
    get_domain 1 0 false (1 / 100) = .ok (0, 1) ∧ (0 : ℚ) + 1 ≠ 1 - 1 / 100 :=
  ⟨by norm_num [get_domain], by norm_num⟩

/-- C1 (amended): for a single-track layout (`total = 1`), `get_domain`
returns the domain `[0, 1]` for every element, axis flag and space parameter,
and its bounds sum to exactly `1` (the spacing is not subtracted: the
`total == 1` branch returns before any spacing is computed). -/
theorem claim_C1_single_track (element : ℤ) (is_y : Bool) (space : ℚ) :
    ∃ lo hi : ℚ, get_domain 1 element is_y space = .ok (lo, hi) ∧ lo + hi = 1 :=
  ⟨0, 1, by norm_num [get_domain], by norm_num⟩

/-- C3 (counterexample): with `total = 1` and `element = 5` — an element far
outside the valid range `0..total-1` — `get_domain` does not raise
`ValueError`; it returns the domain `[0, 1]`, because the `total == 1` branch
returns before the range check. -/
theorem claim_C3_counterexample :
    get_domain 1 5 false (1 / 100) = .ok (0, 1) ∧
      get_domain 1 5 false (1 / 100) ≠ .error "ValueError" := by
  have h1 : get_domain 1 5 false (1 / 100) = .ok (0, 1) := by norm_num [get_domain]
  exact ⟨h1, by rw [h1]; intro hc; exact Except.noConfusion hc⟩

/-- C3 (amended): for every `total ≥ 2` and every `element > total - 1`,
`get_domain` raises `ValueError` rather than returning a domain.  (When
`total = 1` the function returns `[0, 1]` unconditionally, and negative
elements are handled by Python list indexing, not by the `ValueError`
check.) -/
theorem claim_C3_out_of_range (total : ℕ) (element : ℤ) (is_y : Bool)
    (space : ℚ) (h2 : 2 ≤ total) (hgt : (total : ℤ) - 1 < element) :
    get_domain total element is_y space = .error "ValueError" := by
  unfold get_domain
  rw [if_neg (by omega), if_pos hgt]

/-- Witness for `claim_C3_out_of_range` at `total = 2`, `element = 5`. -/
theorem claim_C3_out_of_range_witness :
    (2 ≤ 2 ∧ (2 : ℤ) - 1 < 5) ∧
      get_domain 2 5 false (1 / 100) = .error "ValueError" :=
  ⟨⟨le_refl 2, by norm_num⟩,
    claim_C3_out_of_range 2 5 false (1 / 100) (le_refl 2) (by norm_num)⟩

/-- C7: for every `total ≥ 1`, every element in the valid range
`0..total-1`, either axis flag and the default `space = 0.01`, `get_domain`
returns a domain whose bounds lie within `[0, 1]`, with the lower bound
strictly below the upper bound. -/
theorem get_domain_normalized (total : ℕ) (element : ℤ) (is_y : Bool)
    (h1 : 1 ≤ total) (h0 : 0 ≤ element) (hle : element ≤ (total : ℤ) - 1) :
    ∃ lo hi : ℚ, get_domain total element is_y (1 / 100) = .ok (lo, hi) ∧
      0 ≤ lo ∧ lo < hi ∧ hi ≤ 1 := by
  by_cases h : total = 1
  · subst h
    exact ⟨0, 1, by norm_num [get_domain], by norm_num, by norm_num, by norm_num⟩
  · have h2 : 2 ≤ total := by omega
    obtain ⟨k, hk, heq⟩ := get_domain_eval total element is_y (1 / 100) h2 h0 hle
    set t : ℚ := (total : ℚ) with ht
    have ht2 : (2 : ℚ) ≤ t := by rw [ht]; exact_mod_cast h2
    have htpos : (0 : ℚ) < t := by linarith
    set sp : ℚ := min ((1 : ℚ) / 100 / 2) (1 / t / 10) with hsp
    have hsppos : 0 < sp := lt_min (by norm_num) (by positivity)
    have hsple : sp ≤ 1 / t / 10 := min_le_right _ _
    have hinv : (0 : ℚ) < 1 / t := by positivity
    refine ⟨_, _, heq, ?_, ?_, ?_⟩
    · have : (0 : ℚ) ≤ 1 / t * k := by positivity
      linarith
    · have hsum : 1 / t * ((k : ℚ) + 1) = 1 / t * k + 1 / t := by ring
      linarith
    · have hk1 : ((k : ℚ) + 1) ≤ t := by rw [ht]; exact_mod_cast hk
      have hmul : 1 / t * ((k : ℚ) + 1) ≤ 1 / t * t :=
        mul_le_mul_of_nonneg_left hk1 (by positivity)
      have htt : 1 / t * t = 1 := by field_simp
      linarith

/-- Witness for `get_domain_normalized` at `total = 3`, `element = 1`,
`is_y = True`. -/
theorem get_domain_normalized_witness :
    (1 ≤ 3 ∧ (0 : ℤ) ≤ 1 ∧ (1 : ℤ) ≤ (3 : ℤ) - 1) ∧
      (∃ lo hi : ℚ, get_domain 3 1 true (1 / 100) = .ok (lo, hi) ∧
        0 ≤ lo ∧ lo < hi ∧ hi ≤ 1) :=
  ⟨⟨by norm_num, by norm_num, by norm_num⟩,
    get_domain_normalized 3 1 true (by norm_num) (by norm_num) (by norm_num)⟩

/-- `numpy` `arr.max()` on a coordinate list: fold of `max` over a nonempty
list (`0` is an arbitrary default for the empty case, which the code never
reaches). -/
def np_max (l : List ℚ) : ℚ := (l.max?).getD 0

/-- `numpy` `arr.min()` on a coordinate list. -/
def np_min (l : List ℚ) : ℚ := (l.min?).getD 0

instance : Std.Antisymm ((· : ℚ) ≤ ·) := ⟨fun h1 h2 => le_antisymm h1 h2⟩

theorem np_max_spec (l : List ℚ) (h : l ≠ []) :
    np_max l ∈ l ∧ ∀ b ∈ l, b ≤ np_max l := by
  obtain ⟨a, ha⟩ : ∃ a, l.max? = some a := by
    cases hl : l.max? with
    | none => exact absurd (List.max?_eq_none_iff.mp hl) h
    | some a => exact ⟨a, rfl⟩
  have hiff := (List.max?_eq_some_iff (fun a => le_refl a)
    (fun a b => max_choice a b) (fun a b c => max_le_iff)).mp ha
  simpa [np_max, ha] using hiff

theorem np_min_spec (l : List ℚ) (h : l ≠ []) :
    np_min l ∈ l ∧ ∀ b ∈ l, np_min l ≤ b := by
  obtain ⟨a, ha⟩ : ∃ a, l.min? = some a := by
    cases hl : l.min? with
    | none => exact absurd (List.min?_eq_none_iff.mp hl) h
    | some a => exact ⟨a, rfl⟩
  have hiff := (List.min?_eq_some_iff (fun a => le_refl a)
    (fun a b => min_choice a b) (fun a b c => le_min_iff)).mp ha
  simpa [np_min, ha] using hiff

theorem np_max_eq_of (l : List ℚ) (a : ℚ) (hmem : a ∈ l)
    (hub : ∀ b ∈ l, b ≤ a) : np_max l = a := by
  have h : l ≠ [] := List.ne_nil_of_mem hmem
  exact le_antisymm (hub _ (np_max_spec l h).1) ((np_max_spec l h).2 a hmem)

theorem np_min_eq_of (l : List ℚ) (a : ℚ) (hmem : a ∈ l)
    (hlb : ∀ b ∈ l, a ≤ b) : np_min l = a := by
  have h : l ≠ [] := List.ne_nil_of_mem hmem
  exact le_antisymm ((np_min_spec l h).2 a hmem) (hlb _ (np_min_spec l h).1)

theorem np_max_reverse (l : List ℚ) (h : l ≠ []) :
    np_max l.reverse = np_max l :=
  np_max_eq_of _ _ (List.mem_reverse.mpr (np_max_spec l h).1)
    (fun b hb => (np_max_spec l h).2 b (List.mem_reverse.mp hb))

theorem np_min_reverse (l : List ℚ) (h : l ≠ []) :
    np_min l.reverse = np_min l :=
  np_min_eq_of _ _ (List.mem_reverse.mpr (np_min_spec l h).1)
    (fun b hb => (np_min_spec l h).2 b (List.mem_reverse.mp hb))

theorem np_max_map_sub (c : ℚ) (l : List ℚ) (h : l ≠ []) :
    np_max (l.map (fun x => c - x)) = c - np_min l :=
  np_max_eq_of _ _ (List.mem_map.mpr ⟨np_min l, (np_min_spec l h).1, rfl⟩)
    (fun b hb => by
      obtain ⟨x, hx, rfl⟩ := List.mem_map.mp hb
      have := (np_min_spec l h).2 x hx
      linarith)

theorem np_min_map_sub (c : ℚ) (l : List ℚ) (h : l ≠ []) :
    np_min (l.map (fun x => c - x)) = c - np_max l :=
  np_min_eq_of _ _ (List.mem_map.mpr ⟨np_max l, (np_max_spec l h).1, rfl⟩)
    (fun b hb => by
      obtain ⟨x, hx, rfl⟩ := List.mem_map.mp hb
      have := (np_max_spec l h).2 x hx
      linarith)

/-- The five x-coordinates the Python shape constructors emit for one
rectangle piece of a feature segment `c = coords[i]` (drawable.py lines
712-714, 721-723, 771-773): `width = abs(c[0] - c[1])`,
`x_coord = min(c[0], c[1])`. -/
def rect_piece_x (c : ℚ × ℚ) : List (Option ℚ) :=
  let width := |c.1 - c.2|
  let x_coord := min c.1 c.2
  [some x_coord, some x_coord, some (x_coord + width), some (x_coord + width),
    some x_coord]

/-- The matching five y-coordinates of a rectangle piece (lines 715, 724,
774). -/
def rect_piece_y (y height : ℚ) : List (Option ℚ) :=
  [some y, some (y + height), some (y + height), some y, some y]

/-- The five x-coordinates of one diamond piece (lines 735-741, 750-756). -/
def diamond_piece_x (c : ℚ × ℚ) : List (Option ℚ) :=
  let width := |c.1 - c.2|
  let x_coord := min c.1 c.2
  [some x_coord, some (x_coord + width / 2), some (x_coord + width),
    some (x_coord + width / 2), some x_coord]

/-- The matching five y-coordinates of a diamond piece (lines 742, 757),
with `hh = height / 2`. -/
def diamond_piece_y (y height : ℚ) : List (Option ℚ) :=
  [some y, some (y + height / 2), some y, some (y - height / 2), some y]

/-- The body of `Rectangle.__init__`'s `for i in range(1, len(coords))`
loop (lines 716-724): given the previous segment `prev` and the remaining
segments, emits a `None`-delimited connector at mid-height followed by the
rectangle piece of each segment. -/
def rect_segments (y height : ℚ) : ℚ × ℚ → List (ℚ × ℚ) →
    List (Option ℚ) × List (Option ℚ)
  | _, [] => ([], [])
  | prev, c :: rest =>
    let tail := rect_segments y height c rest
    ([none, some prev.2, some c.1, none] ++ rect_piece_x c ++ tail.1,
     [none, some (y + height / 2), some (y + height / 2), none] ++
       rect_piece_y y height ++ tail.2)

/-- Embedding of `Rectangle.__init__(coords, y=0, height=0.25)` (lines
709-726): the `x`/`y` coordinate arrays it stores, or `IndexError` when
`coords` is empty (Python fails at `coords[0]`). -/
def Rectangle_xy (coords : List (ℚ × ℚ)) (y height : ℚ) :
    Except String (List (Option ℚ) × List (Option ℚ)) :=
  match coords with
  | [] => .error "IndexError"
  | c0 :: rest =>
    let tail := rect_segments y height c0 rest
    .ok (rect_piece_x c0 ++ tail.1, rect_piece_y y height ++ tail.2)

/-- The body of `Diamond.__init__`'s loop (lines 743-757): connector at
height `y` followed by the diamond piece of each remaining segment. -/
def diamond_segments (y height : ℚ) : ℚ × ℚ → List (ℚ × ℚ) →
    List (Option ℚ) × List (Option ℚ)
  | _, [] => ([], [])
  | prev, c :: rest =>
    let tail := diamond_segments y height c rest
    ([none, some prev.2, some c.1, none] ++ diamond_piece_x c ++ tail.1,
     [none, some y, some y, none] ++ diamond_piece_y y height ++ tail.2)

/-- Embedding of `Diamond.__init__(coords, y=0, height=0.25)` (lines
729-759). -/
def Diamond_xy (coords : List (ℚ × ℚ)) (y height : ℚ) :
    Except String (List (Option ℚ) × List (Option ℚ)) :=
  match coords with
  | [] => .error "IndexError"
  | c0 :: rest =>
    let tail := diamond_segments y height c0 rest
    .ok (diamond_piece_x c0 ++ tail.1, diamond_piece_y y height ++ tail.2)

/-- The body of `Arrow.__init__`'s `for i in range(len(coords) - 1)` loop
(lines 769-777): a rectangle piece for each segment but the last, each
followed by a `None`-delimited connector to the next segment. -/
def arrow_body (y height : ℚ) : List (ℚ × ℚ) →
    List (Option ℚ) × List (Option ℚ)
  | [] => ([], [])
  | [_] => ([], [])
  | a :: b :: rest =>
    let tail := arrow_body y height (b :: rest)
    (rect_piece_x a ++ [none, some a.2, some b.1, none] ++ tail.1,
     rect_piece_y y height ++ [none, some (y + height / 2),
       some (y + height / 2), none] ++ tail.2)

/-- The eight x-coordinates of the arrow head built from `c = coords[-1]`
(lines 779-794): `width = abs(c[0] - c[1])`, `x_coord = min(c[0], c[1])`,
`hw = width * arrow_head_w * 2`. -/
def arrow_head_x (c : ℚ × ℚ) (arrow_head_w : ℚ) : List ℚ :=
  let width := |c.1 - c.2|
  let x_coord := min c.1 c.2
  let hw := width * arrow_head_w * 2
  [x_coord, x_coord + width - hw, x_coord + width - hw, x_coord + width,
    x_coord + width - hw, x_coord + width - hw, x_coord, x_coord]

/-- The eight y-coordinates of the arrow head (lines 795-804), with
`hh = height * arrow_head_w * 2`. -/
def arrow_head_y (y height arrow_head_w : ℚ) : List ℚ :=
  let hh := height * arrow_head_w * 2
  [y, y, y - hh, y + height / 2, y + height + hh, y + height, y + height, y]

/-- Embedding of `Arrow.__init__(coords, y=0, height=0.25,
arrow_head_w=0.1, reverse=False)` (lines 762-815): body pieces for all but
the last segment, then the arrow head; with `reverse=True` the head x-array
becomes `flip(arrow_x.max() - arrow_x + arrow_x.min())` and the head
y-array becomes `flip(arrow_y)` (lines 808-812).  `IndexError` when
`coords` is empty (Python fails at `coords[-1]`). -/
def Arrow_xy (coords : List (ℚ × ℚ)) (y height arrow_head_w : ℚ)
    (reverse : Bool) : Except String (List (Option ℚ) × List (Option ℚ)) :=
  match coords.getLast? with
  | none => .error "IndexError"
  | some cl =>
    let body := arrow_body y height coords
    let ax := arrow_head_x cl arrow_head_w
    let ay := arrow_head_y y height arrow_head_w
    if reverse then
      .ok (body.1 ++ ((ax.map (fun v => np_max ax - v + np_min ax)).reverse).map some,
           body.2 ++ (ay.reverse).map some)
    else
      .ok (body.1 ++ ax.map some, body.2 ++ ay.map some)

/-- Embedding of `Point.__init__(x, y, size=14, symbol="square")` (lines
820-828): the stored coordinate arrays are the singletons `[x]` and `[y]`. -/
def Point_xy (x y : ℚ) : List ℚ × List ℚ := ([x], [y])

/-- C2: Arrow construction supports reversal.  For every coordinate list
(with last segment `cl`), `y`, `height` and `arrow_head_w`, the
`reverse=True` arrow differs from the `reverse=False` arrow only in the
head: its head x-array is the forward head in reversed point order with
each x replaced by its mirror image `max + min - x` about the head's own x
extent, its head y-array is the forward head y-array reversed, and the
mirrored head spans exactly the same `[min, max]` x interval as the
forward head. -/
theorem arrow_reverse_mirror (coords : List (ℚ × ℚ)) (cl : ℚ × ℚ)
    (y height aw : ℚ) (hlast : coords.getLast? = some cl) :
    ∃ bxs bys : List (Option ℚ),
      Arrow_xy coords y height aw false =
        .ok (bxs ++ (arrow_head_x cl aw).map some,
             bys ++ (arrow_head_y y height aw).map some) ∧
      Arrow_xy coords y height aw true =
        .ok (bxs ++ ((arrow_head_x cl aw).reverse.map
              (fun v => np_max (arrow_head_x cl aw) +
                np_min (arrow_head_x cl aw) - v)).map some,
             bys ++ ((arrow_head_y y height aw).reverse).map some) ∧
      np_max ((arrow_head_x cl aw).reverse.map
          (fun v => np_max (arrow_head_x cl aw) +
            np_min (arrow_head_x cl aw) - v)) =
        np_max (arrow_head_x cl aw) ∧
      np_min ((arrow_head_x cl aw).reverse.map
          (fun v => np_max (arrow_head_x cl aw) +
            np_min (arrow_head_x cl aw) - v)) =
        np_min (arrow_head_x cl aw) := by
  have hne : arrow_head_x cl aw ≠ [] := by simp [arrow_head_x]
  have hfun : (fun v => np_max (arrow_head_x cl aw) - v +
      np_min (arrow_head_x cl aw)) =
      (fun v => np_max (arrow_head_x cl aw) +
        np_min (arrow_head_x cl aw) - v) := funext fun v => by ring
  refine ⟨(arrow_body y height coords).1, (arrow_body y height coords).2,
    ?_, ?_, ?_, ?_⟩
  · unfold Arrow_xy
    rw [hlast]
    rfl
  · unfold Arrow_xy
    rw [hlast]
    simp only [if_true]
    rw [hfun, ← List.map_reverse]
  · rw [List.map_reverse, np_max_reverse _ (by simp [hne]),
      np_max_map_sub _ _ hne]
    ring
  · rw [List.map_reverse, np_min_reverse _ (by simp [hne]),
      np_min_map_sub _ _ hne]
    ring

/-- Witness for `arrow_reverse_mirror` at `coords = [(0, 3)]`, `y = 0`,
`height = 1/4`, `arrow_head_w = 1/10`. -/
theorem arrow_reverse_mirror_witness :
    ([((0 : ℚ), (3 : ℚ))].getLast? = some (0, 3)) ∧
      (∃ bxs bys : List (Option ℚ),
        Arrow_xy [(0, 3)] 0 (1 / 4) (1 / 10) false =
          .ok (bxs ++ (arrow_head_x (0, 3) (1 / 10)).map some,
               bys ++ (arrow_head_y 0 (1 / 4) (1 / 10)).map some) ∧
        Arrow_xy [(0, 3)] 0 (1 / 4) (1 / 10) true =
          .ok (bxs ++ ((arrow_head_x (0, 3) (1 / 10)).reverse.map
                (fun v => np_max (arrow_head_x (0, 3) (1 / 10)) +
                  np_min (arrow_head_x (0, 3) (1 / 10)) - v)).map some,
               bys ++ ((arrow_head_y 0 (1 / 4) (1 / 10)).reverse).map some) ∧
        np_max ((arrow_head_x (0, 3) (1 / 10)).reverse.map
            (fun v => np_max (arrow_head_x (0, 3) (1 / 10)) +
              np_min (arrow_head_x (0, 3) (1 / 10)) - v)) =
          np_max (arrow_head_x (0, 3) (1 / 10)) ∧
        np_min ((arrow_head_x (0, 3) (1 / 10)).reverse.map
            (fun v => np_max (arrow_head_x (0, 3) (1 / 10)) +
              np_min (arrow_head_x (0, 3) (1 / 10)) - v)) =
          np_min (arrow_head_x (0, 3) (1 / 10))) :=
  ⟨rfl, arrow_reverse_mirror [(0, 3)] (0, 3) 0 (1 / 4) (1 / 10) rfl⟩

/-- C9: the shape-geometry constructors are pure: two constructions of
`Rectangle`, `Diamond`, `Arrow` or `Point` from equal arguments produce
equal x and y coordinate arrays (in the embedding every constructor is a
function of its arguments alone — there is no state outside the returned
arrays to read or mutate). -/
theorem shape_constructors_pure (c₁ c₂ : List (ℚ × ℚ))
    (y₁ y₂ h₁ h₂ w₁ w₂ px₁ px₂ py₁ py₂ : ℚ) (r₁ r₂ : Bool)
    (hc : c₁ = c₂) (hy : y₁ = y₂) (hh : h₁ = h₂) (hw : w₁ = w₂)
    (hr : r₁ = r₂) (hpx : px₁ = px₂) (hpy : py₁ = py₂) :
    Rectangle_xy c₁ y₁ h₁ = Rectangle_xy c₂ y₂ h₂ ∧
    Diamond_xy c₁ y₁ h₁ = Diamond_xy c₂ y₂ h₂ ∧
    Arrow_xy c₁ y₁ h₁ w₁ r₁ = Arrow_xy c₂ y₂ h₂ w₂ r₂ ∧
    Point_xy px₁ py₁ = Point_xy px₂ py₂ := by
  subst hc hy hh hw hr hpx hpy
  exact ⟨rfl, rfl, rfl, rfl⟩

/-- Witness for `shape_constructors_pure` at concrete equal arguments. -/
theorem shape_constructors_pure_witness :
    Rectangle_xy [((1 : ℚ), (2 : ℚ))] 0 (1 / 4) =
        Rectangle_xy [(1, 2)] 0 (1 / 4) ∧
      Diamond_xy [((1 : ℚ), (2 : ℚ))] 0 (1 / 4) =
        Diamond_xy [(1, 2)] 0 (1 / 4) ∧
      Arrow_xy [((1 : ℚ), (2 : ℚ))] 0 (1 / 4) (1 / 10) true =
        Arrow_xy [(1, 2)] 0 (1 / 4) (1 / 10) true ∧
      Point_xy (5 : ℚ) 1 = Point_xy 5 1 :=
  shape_constructors_pure [(1, 2)] [(1, 2)] 0 0 (1 / 4) (1 / 4) (1 / 10)
    (1 / 10) 5 5 1 1 true true rfl rfl rfl rfl rfl rfl rfl

/-- The geometric primitive classes `_MakeShape` can dispatch to. -/
inductive ShapeKind where
  | arrow
  | rectangle
  | diamond
  | point
  deriving DecidableEq

/-- Embedding of `_MakeShape._shapes` (drawable.py lines 842-851): the
feature-type-to-shape-class dictionary. -/
def shapes_table : List (String × ShapeKind) :=
  [("cds", .arrow), ("exon", .arrow), ("transcript", .arrow),
   ("gene", .arrow), ("repeat", .rectangle), ("snp", .point),
   ("snv", .point), ("variation", .diamond)]

/-- Embedding of `self._shapes.get(type_.lower(), Rectangle)` (line 873)
applied to an already lowered key: dictionary lookup with `Rectangle` as
the default. -/
def shapes_get (t : String) : ShapeKind :=
  (shapes_table.lookup t).getD .rectangle

/-- A constructed shape: the class chosen by `_MakeShape.__call__` together
with the coordinate arrays its constructor produced. -/
inductive ShapeResult where
  | arrow (xy : List (Option ℚ) × List (Option ℚ))
  | rectangle (xy : List (Option ℚ) × List (Option ℚ))
  | diamond (xy : List (Option ℚ) × List (Option ℚ))
  | point (xy : List ℚ × List ℚ)
  deriving DecidableEq

/-- The class a constructed shape came from. -/
def ShapeResult.kind : ShapeResult → ShapeKind
  | .arrow _ => .arrow
  | .rectangle _ => .rectangle
  | .diamond _ => .diamond
  | .point _ => .point

/-- Embedding of `_MakeShape.__call__(type_, name, coords, ...)` on the
non-`_Annotatable` path (drawable.py lines 853-899), with `type_` a string
and explicit `y`, `height`, `arrow_head_w` arguments.  The Python code:
* evaluates `coords[0][0] > coords[-1][1]` first (line 865), so
  `coords=None` raises `TypeError` (subscripting `None`) and an empty
  coordinate list raises `IndexError` — the dedicated
  `raise Exception("No coordinates defined")` check at lines 869-870 sits
  after that subscription and is unreachable for `coords=None`;
* dispatches on `self._shapes.get(type_.lower(), Rectangle)`;
* for `Point`, passes `x=min(coords[0][0], coords[-1][1])` and `y=1`;
* for non-`Arrow` classes, drops the `reverse` keyword. -/
def make_shape (type_ : String) (coords : Option (List (ℚ × ℚ)))
    (y height arrow_head_w : ℚ) : Except String ShapeResult :=
  match coords with
  | none => .error "TypeError"
  | some cs =>
    match cs.head?, cs.getLast? with
    | some c0, some cn =>
      let reverse : Bool := decide (c0.1 > cn.2)
      match shapes_get type_.toLower with
      | .arrow => (Arrow_xy cs y height arrow_head_w reverse).map ShapeResult.arrow
      | .rectangle => (Rectangle_xy cs y height).map ShapeResult.rectangle
      | .diamond => (Diamond_xy cs y height).map ShapeResult.diamond
      | .point => .ok (ShapeResult.point (Point_xy (min c0.1 cn.2) 1))
    | _, _ => .error "IndexError"

theorem Arrow_xy_ok (cs : List (ℚ × ℚ)) (y h w : ℚ) (r : Bool) (cn : ℚ × ℚ)
    (hn : cs.getLast? = some cn) : ∃ p, Arrow_xy cs y h w r = .ok p := by
  unfold Arrow_xy
  rw [hn]
  cases r <;> exact ⟨_, rfl⟩

/-- C6: `make_shape` converts feature coordinates into the geometric
primitive determined by the feature type, matched case-insensitively (the
dispatch key is `type_.lower()`): `cds`, `exon`, `transcript` and `gene`
yield an `Arrow`; `snp` and `snv` yield a `Point`; `variation` yields a
`Diamond`; `repeat` and every type absent from the table yield a
`Rectangle`. -/
theorem make_shape_dispatch (type_ : String) (cs : List (ℚ × ℚ))
    (c0 cn : ℚ × ℚ) (y h w : ℚ)
    (h0 : cs.head? = some c0) (hn : cs.getLast? = some cn) :
    (∃ res, make_shape type_ (some cs) y h w = .ok res ∧
        res.kind = shapes_get type_.toLower) ∧
      shapes_get "cds" = .arrow ∧ shapes_get "exon" = .arrow ∧
      shapes_get "transcript" = .arrow ∧ shapes_get "gene" = .arrow ∧
      shapes_get "snp" = .point ∧ shapes_get "snv" = .point ∧
      shapes_get "variation" = .diamond ∧
      shapes_get "repeat" = .rectangle ∧
      ∀ s : String, s ∉ shapes_table.map Prod.fst →
        shapes_get s = .rectangle := by
  refine ⟨?_, ?_, ?_, ?_, ?_, ?_, ?_, ?_, ?_, ?_⟩
  · obtain ⟨t, rfl⟩ : ∃ t, cs = c0 :: t := List.head?_eq_some_iff.mp h0
    unfold make_shape
    simp only [List.head?_cons]
    rw [hn]
    cases hg : shapes_get type_.toLower with
    | arrow =>
      obtain ⟨p, hp⟩ :=
        Arrow_xy_ok (c0 :: t) y h w (decide (c0.1 > cn.2)) cn hn
      refine ⟨.arrow p, ?_, rfl⟩
      show (Arrow_xy (c0 :: t) y h w
        (decide (c0.1 > cn.2))).map ShapeResult.arrow = .ok (.arrow p)
      rw [hp]
      rfl
    | rectangle => exact ⟨.rectangle _, rfl, rfl⟩
    | diamond => exact ⟨.diamond _, rfl, rfl⟩
    | point => exact ⟨.point _, rfl, rfl⟩
  · simp [shapes_get, shapes_table, List.lookup]
  · simp [shapes_get, shapes_table, List.lookup]
  · simp [shapes_get, shapes_table, List.lookup]
  · simp [shapes_get, shapes_table, List.lookup]
  · simp [shapes_get, shapes_table, List.lookup]
  · simp [shapes_get, shapes_table, List.lookup]
  · simp [shapes_get, shapes_table, List.lookup]
  · simp [shapes_get, shapes_table, List.lookup]
  · intro s hs
    have : shapes_table.lookup s = none := by
      rw [List.lookup_eq_none_iff]
      simpa [shapes_table] using hs
    simp [shapes_get, this]

/-- Witness for `make_shape_dispatch` at `type_ = "CDS"` (checking the
case-insensitive match) and `coords = [(0, 3)]`. -/
theorem make_shape_dispatch_witness :
    (([((0 : ℚ), (3 : ℚ))] : List (ℚ × ℚ)).head? = some (0, 3) ∧
        ([((0 : ℚ), (3 : ℚ))] : List (ℚ × ℚ)).getLast? = some (0, 3)) ∧
      ((∃ res, make_shape "CDS" (some [(0, 3)]) 0 (1 / 4) (1 / 10) = .ok res ∧
          res.kind = shapes_get ("CDS".toLower)) ∧
        shapes_get "cds" = .arrow ∧ shapes_get "exon" = .arrow ∧
        shapes_get "transcript" = .arrow ∧ shapes_get "gene" = .arrow ∧
        shapes_get "snp" = .point ∧ shapes_get "snv" = .point ∧
        shapes_get "variation" = .diamond ∧
        shapes_get "repeat" = .rectangle ∧
        ∀ s : String, s ∉ shapes_table.map Prod.fst →
          shapes_get s = .rectangle) :=
  ⟨⟨rfl, rfl⟩,
    make_shape_dispatch "CDS" [(0, 3)] (0, 3) (0, 3) 0 (1 / 4) (1 / 10) rfl rfl⟩

/-- C4 (code bug): calling `make_shape` with a non-`_Annotatable` `type_`
and `coords=None` does not raise the dedicated
`Exception("No coordinates defined")`: the comparison
`coords[0][0] > coords[-1][1]` on line 865 subscripts `None` and raises
`TypeError` before the `coords is None` check on lines 869-870 is ever
reached, so the dedicated missing-coordinates error is dead code. -/
theorem make_shape_none_coords_typeerror :
    make_shape "gene" none 0 (1 / 4) (1 / 10) = .error "TypeError" ∧
      make_shape "gene" none 0 (1 / 4) (1 / 10) ≠
        .error "No coordinates defined" :=
  ⟨rfl, by intro hc; injection hc with h; exact absurd h (by decide)⟩

/-- One renderable data series held by a `Drawable`: plotly traces carry a
`name` attribute (used by `get_trace_titles` / `pop_trace`) plus payload
data, abstracted here as an integer. -/
structure PlotTrace where
  name : String
  payload : ℤ
  deriving DecidableEq

/-- The state of a `Drawable` relevant to its trace list and figure
construction (drawable.py lines 155-266): the mutable `_traces` list, the
`xtitle`/`ytitle` attributes and the layout's axis titles.  (`None` and the
empty string are both falsy for `if self.xtitle:`; the model uses `none`
for a falsy title.) -/
structure DrawableState where
  traces : List PlotTrace
  xtitle : Option String
  ytitle : Option String
  xaxis_title : Option String
  yaxis_title : Option String
  deriving DecidableEq

/-- Embedding of `Drawable.get_trace_titles` (lines 210-212). -/
def get_trace_titles (traces : List PlotTrace) : List String :=
  traces.map PlotTrace.name

/-- Embedding of `Drawable.pop_trace(title)` (lines 214-222): looks up the
first trace whose name is `title`; on `ValueError` from `.index` the code
constructs `UserWarning(f"no trace with name {title}")` WITHOUT raising it
and plainly returns `None`, leaving the list unchanged; otherwise it pops
and returns the trace at the found index.  Result: (returned value,
trace list after the call). -/
def pop_trace (traces : List PlotTrace) (title : String) :
    Option PlotTrace × List PlotTrace :=
  match (get_trace_titles traces).indexOf? title with
  | none => (none, traces)
  | some i => (traces[i]?, traces.eraseIdx i)

/-- Embedding of `Drawable.add_trace(trace)` (lines 240-241):
`self.traces.append(trace)`. -/
def add_trace (d : DrawableState) (t : PlotTrace) : DrawableState :=
  { d with traces := d.traces ++ [t] }

/-- One entry of the `"data"` list of a figure: either a real trace or the
`{}` placeholder used when the trace list is empty. -/
inductive FigDatum where
  | trace (t : PlotTrace)
  | empty
  deriving DecidableEq

/-- The layout part of the figure mapping that `Drawable.figure` touches. -/
structure FigLayout where
  xaxis_title : Option String
  yaxis_title : Option String
  deriving DecidableEq

/-- The mapping `Drawable.figure` returns: a `"data"` key and a `"layout"`
key. -/
structure Fig where
  data : List FigDatum
  layout : FigLayout
  deriving DecidableEq

/-- Embedding of the `Drawable.figure` property (lines 247-266).  The base
`Drawable` has no `_build_fig`, so the `if not self.traces and
hasattr(self, "_build_fig")` rebuild is skipped; `traces = self.traces if
self.traces else [{}]`; each axis title is `self.xtitle` when truthy, else
the layout's existing title; the result is
`UnionDict(data=traces, layout=self.layout)`. -/
def figure (d : DrawableState) : Fig :=
  let traces :=
    if d.traces.isEmpty then [FigDatum.empty] else d.traces.map FigDatum.trace
  let xt := match d.xtitle with
    | some t => some t
    | none => d.xaxis_title
  let yt := match d.ytitle with
    | some t => some t
    | none => d.yaxis_title
  { data := traces, layout := { xaxis_title := xt, yaxis_title := yt } }

theorem foldl_add_trace_traces (ts : List PlotTrace) :
    ∀ d : DrawableState, (List.foldl add_trace d ts).traces = d.traces ++ ts := by
  induction ts with
  | nil => intro d; simp
  | cons t rest ih =>
    intro d
    rw [List.foldl_cons, ih (add_trace d t)]
    simp [add_trace]

/-- A freshly constructed `Drawable()` with no traces and no titles. -/
def drawable0 : DrawableState := ⟨[], none, none, none, none⟩

/-- C5 (counterexample): a `Drawable` with no traces appended violates the
claim: `figure`'s `"data"` value is the one-element placeholder list
`[{}]`, not the (empty) sequence of appended traces. -/
theorem claim_C5_counterexample :
    (figure drawable0).data = [FigDatum.empty] ∧
      (figure drawable0).data ≠ ([] : List PlotTrace).map FigDatum.trace :=
  ⟨rfl, by simp [figure, drawable0]⟩

/-- C5 (amended): for every `Drawable` whose trace list is non-empty, the
`figure` property returns a mapping with a `"data"` key and a `"layout"`
key, and the `"data"` value is exactly the traces in the order they were
appended via `add_trace`; when no trace was appended, `"data"` is the
single placeholder `[{}]` instead. -/
theorem figure_data_is_append_order (ts : List PlotTrace)
    (xt yt ax ay : Option String) (hne : ts ≠ []) :
    (figure (List.foldl add_trace ⟨[], xt, yt, ax, ay⟩ ts)).data =
      ts.map FigDatum.trace := by
  simp only [figure]
  rw [foldl_add_trace_traces]
  simp [hne]

/-- Witness for `figure_data_is_append_order` with one appended trace. -/
theorem figure_data_is_append_order_witness :
    ([⟨"t1", 7⟩] : List PlotTrace) ≠ [] ∧
      (figure (List.foldl add_trace ⟨[], none, none, none, none⟩
          ([⟨"t1", 7⟩] : List PlotTrace))).data =
        ([⟨"t1", 7⟩] : List PlotTrace).map FigDatum.trace :=
  ⟨by simp,
    figure_data_is_append_order [⟨"t1", 7⟩] none none none none (by simp)⟩

/-- C10: when no trace name matches `title`, `pop_trace` returns `None`
and leaves the trace list unchanged — the `ValueError` from `.index` is
caught, and the `UserWarning` object on line 219 is constructed but never
raised, so no exception or warning reaches the caller. -/
theorem pop_trace_missing (traces : List PlotTrace) (title : String)
    (h : title ∉ get_trace_titles traces) :
    pop_trace traces title = (none, traces) := by
  unfold pop_trace
  have hidx : (get_trace_titles traces).indexOf? title = none := by
    rw [List.indexOf?, List.findIdx?_eq_none_iff]
    intro x hx
    exact beq_eq_false_iff_ne.mpr (fun hc => h (hc ▸ hx))
  rw [hidx]

/-- Witness for `pop_trace_missing` on a two-trace list and an absent
title. -/
theorem pop_trace_missing_witness :
    ("absent" ∉ get_trace_titles [⟨"a", 1⟩, ⟨"b", 2⟩]) ∧
      pop_trace [⟨"a", 1⟩, ⟨"b", 2⟩] "absent" =
        (none, [⟨"a", 1⟩, ⟨"b", 2⟩]) :=
  ⟨by simp [get_trace_titles], pop_trace_missing [⟨"a", 1⟩, ⟨"b", 2⟩] "absent"
    (by simp [get_trace_titles])⟩

/-- The six axis domains `_build_2x2_fig` configures. -/
structure Layout2x2 where
  xaxis_domain : ℚ × ℚ
  xaxis2_domain : ℚ × ℚ
  xaxis3_domain : ℚ × ℚ
  yaxis_domain : ℚ × ℚ
  yaxis2_domain : ℚ × ℚ
  yaxis3_domain : ℚ × ℚ
  deriving DecidableEq

/-- Embedding of the axis-domain arithmetic of
`AnnotatedDrawable._build_2x2_fig` (drawable.py lines 396-496), as a
function of the two feature-track extents `left_range[1] = int(max_x) + 1`
and `bottom_range[1] = int(max_y) + 1` (lines 437 and 453; both are at
least 1 since `max_x`/`max_y` start from 0).  The steps, in source order:
* the initial layout hard-codes `xaxis.domain = [0.0, 0.099]`,
  `xaxis2/xaxis3/yaxis/yaxis2.domain = [0.109, 1.0]` and
  `yaxis3.domain = [0.0, 0.099]` (lines 400-409); the default `Drawable`
  layout merged on line 410 carries no `domain` keys, so these survive;
* `min_range = min(left_range[1], bottom_range[1])`,
  `left_prop = left_range[1] / min_range` (lines 467-468);
* `xaxis_domain[1] = left_prop * xaxis_domain[1]` and the new domain is
  written to `xaxis` (lines 471-478);
* `xaxis2.domain = xaxis3.domain = (xaxis_domain[1] + 0.01, 1.0)`
  (lines 480-482);
* `bottom_prop = bottom_range[1] / min_range`,
  `yaxis_domain[1] = bottom_prop * yaxis_domain[1]` written to `yaxis3`
  (lines 485-490);
* `yaxis.domain = yaxis2.domain = (yaxis_domain[1] + 0.01, 1.0)`
  (lines 493-494). -/
def build_2x2_domains (left_extent bottom_extent : ℕ) : Layout2x2 :=
  let xaxis : ℚ × ℚ := (0, 99 / 1000)
  let yaxis3 : ℚ × ℚ := (0, 99 / 1000)
  let left_range_hi : ℚ := left_extent
  let bottom_range_hi : ℚ := bottom_extent
  let min_range : ℚ := min left_range_hi bottom_range_hi
  let left_prop : ℚ := left_range_hi / min_range
  let xaxis := (xaxis.1, left_prop * xaxis.2)
  let space : ℚ := 1 / 100
  let xaxis2 := (xaxis.2 + space, (1 : ℚ))
  let xaxis3 := (xaxis.2 + space, (1 : ℚ))
  let bottom_prop : ℚ := bottom_range_hi / min_range
  let yaxis3 := (yaxis3.1, bottom_prop * yaxis3.2)
  let yaxis := (yaxis3.2 + space, (1 : ℚ))
  let yaxis2 := (yaxis3.2 + space, (1 : ℚ))
  ⟨xaxis, xaxis2, xaxis3, yaxis, yaxis2, yaxis3⟩

/-- C8: in the two-track layout built by `_build_2x2_fig`, the upper bound
of the left track's x-axis domain is the base upper bound `0.099` scaled
by the ratio of the left track's extent to the minimum of the two track
extents; the main panel's x domain (and the bottom track's, sharing the
column) begins `0.01` above that scaled bound; symmetrically, the bottom
track's y-axis domain upper bound is `0.099` scaled by the
bottom-to-minimum extent ratio, and the two panels above start `0.01`
higher. -/
theorem build_2x2_proportional (l b : ℕ) (_hl : 1 ≤ l) (_hb : 1 ≤ b) :
    (build_2x2_domains l b).xaxis_domain.2 =
        99 / 1000 * ((l : ℚ) / min (l : ℚ) (b : ℚ)) ∧
      (build_2x2_domains l b).xaxis2_domain.1 =
        (build_2x2_domains l b).xaxis_domain.2 + 1 / 100 ∧
      (build_2x2_domains l b).xaxis3_domain.1 =
        (build_2x2_domains l b).xaxis_domain.2 + 1 / 100 ∧
      (build_2x2_domains l b).yaxis3_domain.2 =
        99 / 1000 * ((b : ℚ) / min (l : ℚ) (b : ℚ)) ∧
      (build_2x2_domains l b).yaxis_domain.1 =
        (build_2x2_domains l b).yaxis3_domain.2 + 1 / 100 ∧
      (build_2x2_domains l b).yaxis2_domain.1 =
        (build_2x2_domains l b).yaxis3_domain.2 + 1 / 100 := by
  refine ⟨?_, ?_, ?_, ?_, ?_, ?_⟩ <;> simp [build_2x2_domains] <;> ring

/-- Witness for `build_2x2_proportional` at left extent `2`, bottom
extent `3`. -/
theorem build_2x2_proportional_witness :
    (1 ≤ 2 ∧ 1 ≤ 3) ∧
      ((build_2x2_domains 2 3).xaxis_domain.2 =
          99 / 1000 * ((2 : ℚ) / min (2 : ℚ) (3 : ℚ)) ∧
        (build_2x2_domains 2 3).xaxis2_domain.1 =
          (build_2x2_domains 2 3).xaxis_domain.2 + 1 / 100 ∧
        (build_2x2_domains 2 3).xaxis3_domain.1 =
          (build_2x2_domains 2 3).xaxis_domain.2 + 1 / 100 ∧
        (build_2x2_domains 2 3).yaxis3_domain.2 =
          99 / 1000 * ((3 : ℚ) / min (2 : ℚ) (3 : ℚ)) ∧
        (build_2x2_domains 2 3).yaxis_domain.1 =
          (build_2x2_domains 2 3).yaxis3_domain.2 + 1 / 100 ∧
        (build_2x2_domains 2 3).yaxis2_domain.1 =
          (build_2x2_domains 2 3).yaxis3_domain.2 + 1 / 100) :=
  ⟨⟨by norm_num, by norm_num⟩,
    build_2x2_proportional 2 3 (by norm_num) (by norm_num)⟩
